import Mathlib

/-!
Shallow embedding of the offline-first resilience subsystem of the
tiko-events application, together with proofs checking the claims of the
natural-language specification against it.

Embedded modules (each Lean definition names the source function it
translates):
* `src/lib/offline-storage.ts` — the Durable Store (`OfflineStorage`).
* `src/lib/background-sync.ts` — the Sync Queue Manager
  (`BackgroundSyncManager`, `SyncUtils`).
* `public/sw.js` — the Cache Strategy Engine (service-worker handlers).
* `src/lib/notification.ts` / `src/lib/pwa.ts` — the Notification
  Scheduler and the runtime-activity handlers.

Modelling conventions: JS numbers that are millisecond timestamps or
counters are `Nat`; date arithmetic that may go negative is `Int`;
opaque JSON payloads are `String`; a `fetch` that rejects is `none`;
IndexedDB stores are association lists keyed by the record's key path,
with `put` as upsert; the auto-increment key of `failed-requests` is
modelled by a `nextFailedId` counter.
-/

set_option linter.unusedVariables false

namespace Tiko

/-! ## Data model (offline-storage.ts) -/

/-- `syncStatus` field of cached records. -/
inductive SyncStatus
  | synced
  | pending
  | failed
deriving DecidableEq, Repr

/-- `SyncOperation.priority` in background-sync.ts. -/
inductive Priority
  | high
  | medium
  | low
deriving DecidableEq, Repr

/-- The numeric ranking `{ high: 3, medium: 2, low: 1 }` used by the sort
comparator in `BackgroundSyncManager.performSync`. -/
def priorityOrder : Priority → Nat
  | .high => 3
  | .medium => 2
  | .low => 1

/-- `SyncOperation.type` in background-sync.ts. -/
inductive OpType
  | order
  | payment
  | ticket
  | cart
  | userPreference
deriving DecidableEq, Repr

/-- `SyncOperation.action` in background-sync.ts. -/
inductive OpAction
  | create
  | update
  | delete
deriving DecidableEq, Repr

/-- An element of a `StoredOrder.payments` array: the raw response object
pushed by the `payment` branch of `handleSuccessfulOperation`. -/
structure PaymentRec where
  raw : String
deriving DecidableEq, Repr

/-- `StoredEvent` (offline-storage.ts): server-shaped fields are collapsed
into the opaque `payload`; `id`, `cachedAt` and `syncStatus` are kept. -/
structure StoredEvent where
  id : String
  payload : String
  cachedAt : Nat
  syncStatus : SyncStatus
deriving DecidableEq, Repr

/-- `StoredOrder` (offline-storage.ts), with the fields the claims need. -/
structure StoredOrder where
  id : String
  payments : List PaymentRec
  payload : String
  cachedAt : Nat
  syncStatus : SyncStatus
deriving DecidableEq, Repr

/-- `StoredTicket` (offline-storage.ts). -/
structure StoredTicket where
  id : String
  orderId : String
  payload : String
  cachedAt : Nat
  syncStatus : SyncStatus
deriving DecidableEq, Repr

/-- `FailedRequest` (offline-storage.ts); `id` is the auto-increment key,
always present once the record is stored. -/
structure FailedRequest where
  id : Nat
  url : String
  method : String
  headers : List (String × String)
  body : Option String
  timestamp : Nat
  retryCount : Nat
  maxRetries : Nat
deriving DecidableEq, Repr

/-- `Omit<FailedRequest, 'id'>`, the argument type of `addFailedRequest`. -/
structure FailedRequestInput where
  url : String
  method : String
  headers : List (String × String)
  body : Option String
  timestamp : Nat
  retryCount : Nat
  maxRetries : Nat
deriving DecidableEq, Repr

/-- `UserPreference` (offline-storage.ts); the opaque `value` is a string. -/
structure UserPreference where
  key : String
  value : String
  timestamp : Nat
deriving DecidableEq, Repr

/-- A record of the `cart-items` store, as written by `addToOfflineCart`. -/
structure CartItem where
  id : String
  payload : String
  timestamp : Nat
  syncStatus : SyncStatus
deriving DecidableEq, Repr

/-- The IndexedDB database `TiKoOfflineDB`: one list per object store that
the claims touch, plus the auto-increment counter of `failed-requests`. -/
structure Store where
  events : List StoredEvent
  orders : List StoredOrder
  tickets : List StoredTicket
  failedRequests : List FailedRequest
  preferences : List UserPreference
  cartItems : List CartItem
  nextFailedId : Nat
deriving DecidableEq, Repr

/-- The empty database. -/
def emptyStore : Store :=
  { events := [], orders := [], tickets := [], failedRequests := [],
    preferences := [], cartItems := [], nextFailedId := 1 }

/-- IndexedDB `put` (upsert by key path): replace the record with the same
key if present, otherwise append. -/
def putRecord {α β : Type} [DecidableEq β] (key : α → β) (l : List α) (r : α) :
    List α :=
  if l.any (fun x => decide (key x = key r)) then
    l.map (fun x => if key x = key r then r else x)
  else l ++ [r]

/-- An IndexedDB key: keys are typed, and a number key and a string key
never compare equal.  The `failed-requests` store is keyed by the
numeric auto-increment `id`, while `removeFailedRequest` and
`updateFailedRequest` address it with `id.toString()` — a string key. -/
inductive IDBKey
  | num (n : Nat)
  | str (s : String)
deriving DecidableEq, Repr

namespace OfflineStorage

/-- `OfflineStorage.cacheEvent`: spread the record, stamp `cachedAt` with
the current time and `syncStatus: 'synced'`, then `put` into `events`. -/
def cacheEvent (e : StoredEvent) (now : Nat) (s : Store) : Store :=
  { s with events :=
      putRecord (fun x => x.id) s.events { e with cachedAt := now, syncStatus := .synced } }

/-- `OfflineStorage.cacheOrder`. -/
def cacheOrder (o : StoredOrder) (now : Nat) (s : Store) : Store :=
  { s with orders :=
      putRecord (fun x => x.id) s.orders { o with cachedAt := now, syncStatus := .synced } }

/-- `OfflineStorage.cacheTicket`. -/
def cacheTicket (t : StoredTicket) (now : Nat) (s : Store) : Store :=
  { s with tickets :=
      putRecord (fun x => x.id) s.tickets { t with cachedAt := now, syncStatus := .synced } }

/-- `OfflineStorage.delete('events', key)`. -/
def deleteEvent (k : String) (s : Store) : Store :=
  { s with events := s.events.filter (fun e => e.id != k) }

/-- `OfflineStorage.addFailedRequest`: `{ ...request, retryCount: 0,
maxRetries: 3 }` stored under a fresh auto-increment key.  Note the spread
is overwritten: the caller-supplied `retryCount` and `maxRetries` are
discarded. -/
def addFailedRequest (req : FailedRequestInput) (s : Store) : Store :=
  let fr : FailedRequest :=
    { id := s.nextFailedId, url := req.url, method := req.method,
      headers := req.headers, body := req.body, timestamp := req.timestamp,
      retryCount := 0, maxRetries := 3 }
  { s with failedRequests := s.failedRequests ++ [fr],
           nextFailedId := s.nextFailedId + 1 }

/-- `OfflineStorage.get('failed-requests', key)`: find the record whose
(numeric auto-increment) key equals the requested key. -/
def getFailedRequestByKey (k : IDBKey) (s : Store) : Option FailedRequest :=
  s.failedRequests.find? (fun r => IDBKey.num r.id == k)

/-- `OfflineStorage.delete('failed-requests', key)`: remove the record
whose key equals the requested key. -/
def deleteFailedRequestByKey (k : IDBKey) (s : Store) : Store :=
  { s with failedRequests :=
      s.failedRequests.filter (fun r => IDBKey.num r.id != k) }

/-- `OfflineStorage.updateFailedRequest(id, { retryCount })` (lines
381–386): `get` the record with the STRING key `id.toString()` — which
never matches the numeric auto-increment keys, so the lookup finds
nothing — and only `put` the merged record back if one was found. -/
def updateFailedRequest (id : Nat) (newRetryCount : Nat) (s : Store) : Store :=
  match getFailedRequestByKey (IDBKey.str (toString id)) s with
  | some existing =>
    { s with failedRequests :=
        (putRecord (fun r => r.id) s.failedRequests
          { existing with retryCount := newRetryCount }) }
  | none => s

/-- `OfflineStorage.removeFailedRequest(id)` (lines 388–390): delete with
the STRING key `id.toString()`, which never matches the numeric
auto-increment keys — the real function removes nothing. -/
def removeFailedRequest (id : Nat) (s : Store) : Store :=
  deleteFailedRequestByKey (IDBKey.str (toString id)) s

/-- `OfflineStorage.setUserPreference(key, value)`. -/
def setUserPreference (k v : String) (now : Nat) (s : Store) : Store :=
  { s with preferences :=
      putRecord (fun p => p.key) s.preferences { key := k, value := v, timestamp := now } }

/-- `OfflineStorage.addToOfflineCart(item)`: the generated
`cart-${Date.now()}-${random}` id is passed in as `freshId`. -/
def addToOfflineCart (raw : String) (freshId : String) (now : Nat) (s : Store) : Store :=
  { s with cartItems :=
      (putRecord (fun c => c.id) s.cartItems
        { id := freshId, payload := raw, timestamp := now, syncStatus := .pending }) }

/-- The default `maxAge` of `clearExpiredCache`: 7 days in milliseconds. -/
def defaultMaxAge : Nat := 7 * 24 * 60 * 60 * 1000

/-- `OfflineStorage.clearExpiredCache(maxAge)` (lines 446–466): iterate
over a snapshot of `events` deleting records with `cachedAt < cutoff`
(`syncStatus` is never consulted), then over a snapshot of
`failed-requests` calling `removeFailedRequest(request.id!)` for records
with `timestamp < cutoff` or `retryCount >= maxRetries` — a call that
deletes by the stringified key and therefore removes nothing.  No other
store is touched. -/
def clearExpiredCache (now : Nat) (maxAge : Nat) (s : Store) : Store :=
  let cutoff := now - maxAge
  let s1 := s.events.foldl
    (fun st e => if e.cachedAt < cutoff then deleteEvent e.id st else st) s
  s1.failedRequests.foldl
    (fun st r =>
      if r.timestamp < cutoff ∨ r.retryCount ≥ r.maxRetries then
        removeFailedRequest r.id st
      else st) s1

end OfflineStorage

/-! ## Sync Queue Manager (background-sync.ts) -/

/-- `SyncOperation` (background-sync.ts).  The JSON `data` payload is kept
as its list of object entries (as consumed by `Object.entries` in
`handleSuccessfulOperation`); `none` models a null/absent body. -/
structure SyncOperation where
  id : String
  type : OpType
  action : OpAction
  data : Option (List (String × String))
  endpoint : String
  method : String
  priority : Priority
  retryCount : Nat
  maxRetries : Nat
  timestamp : Nat
  userId : Option String := none
deriving DecidableEq, Repr

/-- A stand-in for `JSON.stringify` on an entries list (the queue claims
never inspect the rendered body, only that it is passed through). -/
def jsonStringify (entries : List (String × String)) : String :=
  entries.foldl (fun acc kv => acc ++ kv.1 ++ ":" ++ kv.2 ++ ";") ""

/-- The body of an HTTP response, as consumed by
`handleSuccessfulOperation`: the `order`, `tickets` and `orderId`
properties when present, and the raw object (`raw`) as pushed into
`payments` or the offline cart.  A server-shaped `order`/`ticket` is
modelled by the stored record type; its `cachedAt`/`syncStatus` stamps
are overwritten by `cacheOrder`/`cacheTicket` anyway. -/
structure SyncResponse where
  order : Option StoredOrder := none
  tickets : Option (List StoredTicket) := none
  orderId : Option String := none
  raw : String := ""
deriving DecidableEq, Repr

/-- The outcome of the `fetch` in `executeOperation`: a rejection
(network error) or an HTTP response with status, status text and body. -/
inductive NetOutcome
  | netError (msg : String)
  | http (status : Nat) (statusText : String) (resp : SyncResponse)
deriving DecidableEq, Repr

/-- JS `Response.ok`: status in the range 200–299. -/
def responseOk (status : Nat) : Bool := 200 ≤ status && status ≤ 299

/-- `SyncResult` (background-sync.ts). -/
structure SyncResult where
  success : Bool
  operation : SyncOperation
  error : Option String := none
  response : Option SyncResponse := none
deriving DecidableEq, Repr

namespace BackgroundSyncManager

/-- `retryDelays = [1000, 5000, 15000, 30000, 60000]` (line 30). -/
def retryDelays : List Nat := [1000, 5000, 15000, 30000, 60000]

/-- `this.retryDelays[Math.min(operation.retryCount - 1, this.retryDelays.length - 1)]`
evaluated after the increment, so `newRetryCount` is the incremented value. -/
def retryDelayFor (newRetryCount : Nat) : Nat :=
  retryDelays.getD (min (newRetryCount - 1) (retryDelays.length - 1)) 0

/-- The comparator of `performSync`'s sort, as a relation: `a` may come
before `b` iff `b`'s priority rank is lower, or ranks are equal and `a`
was enqueued no later (`(priority desc, timestamp asc)`). -/
def syncLE (a b : SyncOperation) : Prop :=
  priorityOrder b.priority < priorityOrder a.priority ∨
    (priorityOrder b.priority = priorityOrder a.priority ∧ a.timestamp ≤ b.timestamp)

instance : DecidableRel syncLE := fun a b => by
  unfold syncLE; infer_instance

instance : IsTotal SyncOperation syncLE where
  total a b := by
    unfold syncLE
    rcases Nat.lt_trichotomy (priorityOrder a.priority) (priorityOrder b.priority) with h | h | h
    · exact Or.inr (Or.inl h)
    · rcases Nat.le_total a.timestamp b.timestamp with ht | ht
      · exact Or.inl (Or.inr ⟨h.symm, ht⟩)
      · exact Or.inr (Or.inr ⟨h, ht⟩)
    · exact Or.inl (Or.inl h)

instance : IsTrans SyncOperation syncLE where
  trans a b c hab hbc := by
    unfold syncLE at *
    rcases hab with h1 | ⟨h1, t1⟩
    · rcases hbc with h2 | ⟨h2, t2⟩
      · exact Or.inl (h2.trans h1)
      · exact Or.inl (h2 ▸ h1)
    · rcases hbc with h2 | ⟨h2, t2⟩
      · exact Or.inl (h1 ▸ h2)
      · exact Or.inr ⟨h2.trans h1, t1.trans t2⟩

/-- The sorted snapshot `[...this.syncQueue].sort(...)` taken at the start
of a drain pass (performSync lines 190–195), modelled as a stable sort by
the comparator's relation. -/
def sortQueue (q : List SyncOperation) : List SyncOperation :=
  q.insertionSort syncLE

/-- `BackgroundSyncManager.handleSuccessfulOperation` (lines 293–336):
the `switch (operation.type)` updating the Durable Store after a 2xx
response.  The `freshId` argument is the generated id of
`addToOfflineCart`.  Note the switch has no `ticket` case. -/
def handleSuccessfulOperation (op : SyncOperation) (resp : SyncResponse)
    (now : Nat) (freshId : String) (s : Store) : Store :=
  match op.type with
  | .order =>
    if op.action = .create then
      match resp.order with
      | some o =>
        let s1 := OfflineStorage.cacheOrder o now s
        match resp.tickets with
        | some ts => ts.foldl (fun st t => OfflineStorage.cacheTicket t now st) s1
        | none => s1
      | none => s
    else s
  | .payment =>
    match resp.orderId with
    | some oid =>
      match s.orders.find? (fun o => o.id == oid) with
      | some o =>
        OfflineStorage.cacheOrder
          { o with payments := o.payments ++ [{ raw := resp.raw }] } now s
      | none => s
    | none => s
  | .cart =>
    if op.action = .create then OfflineStorage.addToOfflineCart resp.raw freshId now s
    else s
  | .userPreference =>
    if op.action = .update then
      match op.data with
      | some entries =>
        entries.foldl (fun st kv => OfflineStorage.setUserPreference kv.1 kv.2 now st) s
      | none => s
    else s
  | .ticket => s

/-- The error string `` `HTTP ${status}: ${statusText}` `` thrown by
`executeOperation` for a non-ok response, or the rejection message. -/
def errorOf : NetOutcome → Option String
  | .netError msg => some msg
  | .http status statusText _ =>
    if responseOk status then none
    else some ("HTTP " ++ toString status ++ ": " ++ statusText)

/-- `BackgroundSyncManager.executeOperation` (lines 251–290): one network
attempt; on a 2xx response the store is updated via
`handleSuccessfulOperation`, any other outcome yields a failed
`SyncResult` and leaves the store alone. -/
def executeOperation (op : SyncOperation) (outcome : NetOutcome)
    (now : Nat) (freshId : String) (s : Store) : SyncResult × Store :=
  match outcome with
  | .netError msg => ({ success := false, operation := op, error := some msg }, s)
  | .http status statusText resp =>
    if responseOk status then
      ({ success := true, operation := op, response := some resp },
        handleSuccessfulOperation op resp now freshId s)
    else
      ({ success := false, operation := op,
         error := some ("HTTP " ++ toString status ++ ": " ++ statusText) }, s)

/-- `BackgroundSyncManager.removePendingOperation` (lines 339–353): find
the stored failed request matching the operation's endpoint and
timestamp, and delete it by key. -/
def removePendingOperation (op : SyncOperation) (s : Store) : Store :=
  match s.failedRequests.find?
      (fun r => r.url == op.endpoint && r.timestamp == op.timestamp) with
  | some r => OfflineStorage.removeFailedRequest r.id s
  | none => s

/-- `BackgroundSyncManager.updatePendingOperation` (lines 356–372): find
the matching stored request and write back the operation's `retryCount`. -/
def updatePendingOperation (op : SyncOperation) (s : Store) : Store :=
  match s.failedRequests.find?
      (fun r => r.url == op.endpoint && r.timestamp == op.timestamp) with
  | some r => OfflineStorage.updateFailedRequest r.id op.retryCount s
  | none => s

/-- `operation.retryCount++` (line 212). -/
def bumpRetry (op : SyncOperation) : SyncOperation :=
  { op with retryCount := op.retryCount + 1 }

/-- The observable per-operation resolution inside a drain pass: the
`SYNC_SUCCESS` notification, the `SYNC_FAILED` notification, or the
`scheduleSync(delay)` retry scheduling. -/
inductive SyncEvent
  | syncSuccess (op : SyncOperation)
  | syncFailed (op : SyncOperation) (error : Option String)
  | retryScheduled (op : SyncOperation) (delay : Nat)
deriving DecidableEq, Repr

/-- The mutable locals of the drain loop in `performSync`: the live
`this.syncQueue`, the Durable Store, and the accumulated results, emitted
events and scheduled retry delays. -/
structure PassState where
  syncQueue : List SyncOperation
  store : Store
  results : List SyncResult
  events : List SyncEvent
  scheduledDelays : List Nat
deriving Repr

/-- One iteration of the `for (const operation of sortedQueue)` loop of
`performSync` (lines 198–237); `f` gives the network outcome of the
attempt. -/
def processOp (f : SyncOperation → NetOutcome) (now : Nat) (freshId : String)
    (ps : PassState) (op : SyncOperation) : PassState :=
  let r := executeOperation op (f op) now freshId ps.store
  if r.1.success then
    -- remove from queue and storage, notify SYNC_SUCCESS
    { ps with
      syncQueue := ps.syncQueue.filter (fun o => o.id != op.id),
      store := removePendingOperation op r.2,
      results := ps.results ++ [r.1],
      events := ps.events ++ [.syncSuccess op] }
  else
    -- operation.retryCount++
    let op' := bumpRetry op
    if op'.retryCount ≥ op.maxRetries then
      -- max retries reached: remove from queue and storage, notify SYNC_FAILED
      { ps with
        syncQueue := ps.syncQueue.filter (fun o => o.id != op.id),
        store := removePendingOperation op' r.2,
        results := ps.results ++ [r.1],
        events := ps.events ++ [.syncFailed op' r.1.error] }
    else
      -- persist the new retryCount and schedule a retry with backoff
      let delay := retryDelayFor op'.retryCount
      { ps with
        syncQueue :=
          ps.syncQueue.map (fun o => if o.id == op.id then bumpRetry o else o),
        store := updatePendingOperation op' r.2,
        results := ps.results ++ [r.1],
        events := ps.events ++ [.retryScheduled op' delay],
        scheduledDelays := ps.scheduledDelays ++ [delay] }

/-- The in-memory state of the manager: the `syncInProgress` flag, the
mirrored queue, and the backing Durable Store. -/
structure SyncState where
  syncInProgress : Bool
  syncQueue : List SyncOperation
  store : Store
deriving Repr

/-- Everything a drain pass produces. `attempts` is the list of
operations for which `executeOperation` performed a network call, in
order. -/
structure PassOutput where
  results : List SyncResult
  attempts : List SyncOperation
  events : List SyncEvent
  scheduledDelays : List Nat
  state : SyncState
deriving Repr

/-- `BackgroundSyncManager.performSync` (lines 178–248): an early return
when a drain is already in progress or the queue is empty, otherwise the
sorted snapshot is processed operation by operation and the flag is
cleared in `finally`. -/
def performSync (f : SyncOperation → NetOutcome) (now : Nat) (freshId : String)
    (s : SyncState) : PassOutput :=
  if s.syncInProgress ∨ s.syncQueue = [] then
    { results := [], attempts := [], events := [], scheduledDelays := [], state := s }
  else
    let sorted := sortQueue s.syncQueue
    let ps0 : PassState :=
      { syncQueue := s.syncQueue, store := s.store, results := [],
        events := [], scheduledDelays := [] }
    let ps := sorted.foldl (processOp f now freshId) ps0
    { results := ps.results, attempts := sorted, events := ps.events,
      scheduledDelays := ps.scheduledDelays,
      state := { syncInProgress := false, syncQueue := ps.syncQueue, store := ps.store } }

/-- Iterated drain passes, one outcome oracle per pass. -/
def performSyncs (now : Nat) (freshId : String)
    (fs : List (SyncOperation → NetOutcome)) (s : SyncState) : SyncState :=
  fs.foldl (fun st f => (performSync f now freshId st).state) s

/-- All network attempts made over a sequence of drain passes. -/
def allAttempts (now : Nat) (freshId : String) :
    List (SyncOperation → NetOutcome) → SyncState → List SyncOperation
  | [], _ => []
  | f :: fs, s =>
    (performSync f now freshId s).attempts ++
      allAttempts now freshId fs (performSync f now freshId s).state

/-- `BackgroundSyncManager.handleOffline` (lines 388–391). -/
def handleOffline (s : SyncState) : SyncState :=
  { s with syncInProgress := false }

/-- `BackgroundSyncManager.storePendingOperation` (lines 150–166):
persist the operation as a failed request via `addFailedRequest`. -/
def storePendingOperation (op : SyncOperation) (s : Store) : Store :=
  OfflineStorage.addFailedRequest
    { url := op.endpoint, method := op.method,
      headers := [("Content-Type", "application/json")],
      body := op.data.map jsonStringify,
      timestamp := op.timestamp,
      retryCount := op.retryCount, maxRetries := op.maxRetries } s

/-- The operation built by `addOperation` for `queueOrderCreation`
(lines 417–427): priority `high`, `maxRetries: 5`, fresh id and
timestamp, `retryCount: 0`. -/
def queueOrderCreationOp (orderData : List (String × String))
    (genId : String) (now : Nat) : SyncOperation :=
  { id := genId, type := .order, action := .create, data := some orderData,
    endpoint := "/api/orders/create", method := "POST", priority := .high,
    retryCount := 0, maxRetries := 5, timestamp := now }

/-- `addOperation` (lines 128–147): push the fresh operation onto the
in-memory queue and persist it via `storePendingOperation`. -/
def addOperation (sop : SyncOperation) (s : SyncState) : SyncState :=
  { s with syncQueue := s.syncQueue ++ [sop],
           store := storePendingOperation sop s.store }

end BackgroundSyncManager

namespace SyncUtils

/-- JS `String.prototype.includes`. -/
def jsIncludes (s sub : String) : Bool := decide (sub.toList <:+: s.toList)

/-- `SyncUtils.shouldRetry` (background-sync.ts lines 576–589): the
retry classifier — client errors (4xx) other than 408/429 are not
retryable, nor is an operation that exhausted its retries.  Note: this
function is never called by `performSync`. -/
def shouldRetry (op : SyncOperation) (error : String) : Bool :=
  if jsIncludes error "HTTP 4" && !(jsIncludes error "408") && !(jsIncludes error "429") then
    false
  else if op.retryCount ≥ op.maxRetries then
    false
  else
    true

end SyncUtils

namespace BackgroundSyncManager

/-- JS `String.prototype.toUpperCase` on the ASCII method names the code
compares against (a structurally recursive stand-in for the platform
function). -/
def jsToUpperCase (s : String) : String :=
  String.mk (s.toList.map Char.toUpper)

/-- `BackgroundSyncManager.inferOperationType` (lines 100–107): guess the
operation type from URL substrings, defaulting to `order`. -/
def inferOperationType (url : String) : OpType :=
  if SyncUtils.jsIncludes url "/orders" then .order
  else if SyncUtils.jsIncludes url "/payments" then .payment
  else if SyncUtils.jsIncludes url "/tickets" then .ticket
  else if SyncUtils.jsIncludes url "/cart" then .cart
  else if SyncUtils.jsIncludes url "/users" || SyncUtils.jsIncludes url "/profile" then
    .userPreference
  else .order

/-- `BackgroundSyncManager.inferAction` (lines 110–118). -/
def inferAction (method : String) : OpAction :=
  if jsToUpperCase method = "POST" then .create
  else if jsToUpperCase method = "PUT" ∨ jsToUpperCase method = "PATCH" then .update
  else if jsToUpperCase method = "DELETE" then .delete
  else .create

/-- `BackgroundSyncManager.inferPriority` (lines 121–125). -/
def inferPriority (url : String) : Priority :=
  if SyncUtils.jsIncludes url "/payments" || SyncUtils.jsIncludes url "/orders/create" then
    .high
  else if SyncUtils.jsIncludes url "/orders" || SyncUtils.jsIncludes url "/tickets" then
    .medium
  else .low

/-- Stand-in for `JSON.parse` on a stored request body (no claim inspects
the parsed payload, only that the loader converts it). -/
def jsonParse (s : String) : List (String × String) := [("body", s)]

/-- `BackgroundSyncManager.convertFailedRequestToOperation` (lines
84–97).  A stored record always carries its auto-increment key, so
`request.id?.toString() || Date.now().toString()` is `toString
request.id`. -/
def convertFailedRequestToOperation (request : FailedRequest) : SyncOperation :=
  { id := toString request.id,
    type := inferOperationType request.url,
    action := inferAction request.method,
    data := request.body.map jsonParse,
    endpoint := request.url,
    method := request.method,
    priority := inferPriority request.url,
    retryCount := request.retryCount,
    maxRetries := request.maxRetries,
    timestamp := request.timestamp }

/-- `BackgroundSyncManager.loadPendingOperations` (lines 73–81), run at
initialization (e.g. after a page reload): replace the in-memory queue
with the stored failed requests, converted to sync operations. -/
def loadPendingOperations (s : SyncState) : SyncState :=
  { s with syncQueue := s.store.failedRequests.map convertFailedRequestToOperation }

end BackgroundSyncManager

/-! ## Cache Strategy Engine (public/sw.js) -/

namespace SW

/-- A service-worker `Response`: status, an opaque body, and whether the
JSON body carries the sentinel `offline: true` field. -/
structure SWResponse where
  status : Nat
  body : String
  offline : Bool := false
deriving DecidableEq, Repr

/-- JS `Response.ok`. -/
def SWResponse.ok (r : SWResponse) : Bool := 200 ≤ r.status && r.status ≤ 299

/-- One named cache of the Cache Storage API, keyed by request URL. -/
abbrev SWCache : Type := List (String × SWResponse)

/-- `cache.match(request)`. -/
def cacheLookup (c : SWCache) (url : String) : Option SWResponse :=
  (List.find? (fun e => e.1 == url) c).map (fun e => e.2)

/-- `cache.put(request, response)` — last write wins. -/
def cacheInsert (c : SWCache) (url : String) (r : SWResponse) : SWCache :=
  putRecord (fun e => e.1) c (url, r)

/-- The two named caches the fetch handlers write to
(`tiko-static-v1.0.0` and `tiko-dynamic-v1.0.0`). -/
structure CacheState where
  staticCache : SWCache
  dynamicCache : SWCache

/-- `caches.match(request)`: search every named cache. -/
def cachesLookup (cs : CacheState) (url : String) : Option SWResponse :=
  match cacheLookup cs.staticCache url with
  | some r => some r
  | none => cacheLookup cs.dynamicCache url

/-- `CACHE_API_ROUTES` (sw.js lines 18–23). -/
def CACHE_API_ROUTES : List String :=
  ["/api/events", "/api/categories", "/api/venues", "/api/auth/me"]

/-- The synthesized offline payload of `handleApiRequest`
(`\x7b error: 'Offline', message: ..., offline: true \x7d`, status 503). -/
def offlineApiResponse : SWResponse :=
  { status := 503,
    body := "error:Offline;message:This feature is not available offline;offline:true",
    offline := true }

/-- The synthesized response of `handleStaticRequest`'s catch branch. -/
def offlineAssetResponse : SWResponse :=
  { status := 503, body := "Asset not available offline", offline := false }

/-- `handleApiRequest` (sw.js lines 92–133), network first: `fetched` is
the result of `fetch(request)` (`none` = the fetch threw).  On success
the response is cached for allow-listed routes; on network failure fall
back to the cache, else synthesize the offline payload. -/
def handleApiRequest (url : String) (fetched : Option SWResponse)
    (cs : CacheState) : SWResponse × CacheState :=
  match fetched with
  | some networkResponse =>
    let cs' :=
      if networkResponse.ok &&
          CACHE_API_ROUTES.any (fun route => SyncUtils.jsIncludes url route) then
        { cs with dynamicCache := cacheInsert cs.dynamicCache url networkResponse }
      else cs
    (networkResponse, cs')
  | none =>
    match cachesLookup cs url with
    | some cachedResponse => (cachedResponse, cs)
    | none => (offlineApiResponse, cs)

/-- `handleStaticRequest` (sw.js lines 136–154), cache first on the
static cache; on total failure a synthetic 503 text response. -/
def handleStaticRequest (url : String) (fetched : Option SWResponse)
    (cs : CacheState) : SWResponse × CacheState :=
  match cacheLookup cs.staticCache url with
  | some cachedResponse => (cachedResponse, cs)
  | none =>
    match fetched with
    | some networkResponse =>
      let cs' :=
        if networkResponse.ok then
          { cs with staticCache := cacheInsert cs.staticCache url networkResponse }
        else cs
      (networkResponse, cs')
    | none => (offlineAssetResponse, cs)

/-- `handleNavigationRequest` (sw.js lines 157–177). -/
def handleNavigationRequest (url : String) (fetched : Option SWResponse)
    (cs : CacheState) : SWResponse × CacheState :=
  match fetched with
  | some networkResponse =>
    let cs' :=
      if networkResponse.ok then
        { cs with dynamicCache := cacheInsert cs.dynamicCache url networkResponse }
      else cs
    (networkResponse, cs')
  | none =>
    match cachesLookup cs url with
    | some cachedResponse => (cachedResponse, cs)
    | none =>
      match cachesLookup cs "/offline" with
      | some offlinePage => (offlinePage, cs)
      | none => ({ status := 503, body := "Offline", offline := false }, cs)

end SW

/-! ## Notification Scheduler (notification.ts, pwa.ts, sw.js) -/

/-- A record of the `scheduled-notifications` store of
`TiKoNotificationsDB` (keyPath `id`), as written by
`storeScheduledNotification`.  `eventDate` is the parsed
`new Date(eventDate).getTime()` value; `reminderTime` holds the absolute
due timestamp computed by `scheduleEventReminder`. -/
structure ScheduledReminder where
  id : String
  eventTitle : String
  eventDate : Int
  eventId : String
  reminderTime : Int
  type : String
deriving DecidableEq, Repr

/-- The notification-side persistent state: the stored reminders and the
log of notifications actually shown (`showNotification` calls). -/
structure NotifState where
  scheduled : List ScheduledReminder
  fired : List String
deriving DecidableEq, Repr

namespace NotificationManager

/-- `NotificationManager.scheduleEventReminder` (notification.ts lines
368–388): compute the absolute reminder time; if it is not in the
future, return without storing; otherwise `put` the reminder into the
`scheduled-notifications` store. -/
def scheduleEventReminder (eventTitle : String) (eventDate : Int)
    (eventId : String) (reminderTime : Int) (now : Int)
    (ns : NotifState) : NotifState :=
  let eventDateTime := eventDate
  let reminderDateTime := eventDateTime - reminderTime
  if reminderDateTime ≤ now then ns
  else
    { ns with scheduled :=
        (putRecord (fun n => n.id) ns.scheduled
          { id := "reminder-" ++ eventId ++ "-" ++ toString reminderTime,
            eventTitle := eventTitle, eventDate := eventDate,
            eventId := eventId, reminderTime := reminderDateTime,
            type := "event-reminder" }) }

end NotificationManager

/-- The combined application state the runtime-activity handlers act on. -/
structure AppState where
  sync : BackgroundSyncManager.SyncState
  notif : NotifState

/-- The handlers that run while the runtime is active (foreground poll or
periodic wake), translated from the source: the hourly
`clearExpiredCache` interval and the 5-minute `forcSync` interval of
`pwa.ts setupMaintenanceTasks`, `handleVisibilityChange` (foreground →
`forcSync`), `handleOnline` (`forcSync` + `preloadCriticalData`, which
caches fetched events/tickets/orders), and the sw.js `sync` event
(`syncFailedRequests`, which refetches stored failed requests and
deletes those that succeed).  The sw.js `push` handler is not a
runtime-activity step: it displays a server-sent payload and, like every
handler above, never reads the `scheduled-notifications` store. -/
inductive RuntimeStep
  | cacheMaintenance (now : Nat)
  | periodicSync (f : SyncOperation → NetOutcome) (now : Nat) (freshId : String)
  | foregroundVisibility (f : SyncOperation → NetOutcome) (now : Nat) (freshId : String)
  | onlineResume (f : SyncOperation → NetOutcome) (now : Nat) (freshId : String)
      (fetchedEvents : List StoredEvent) (fetchedTickets : List StoredTicket)
      (fetchedOrders : List StoredOrder)
  | swBackgroundSync (succeeded : FailedRequest → Bool)

/-- `preloadCriticalData` (pwa.ts): cache each fetched event, ticket and
order. -/
def preloadCriticalData (evs : List StoredEvent) (ts : List StoredTicket)
    (os : List StoredOrder) (now : Nat) (s : Store) : Store :=
  let s1 := evs.foldl (fun st e => OfflineStorage.cacheEvent e now st) s
  let s2 := ts.foldl (fun st t => OfflineStorage.cacheTicket t now st) s1
  os.foldl (fun st o => OfflineStorage.cacheOrder o now st) s2

/-- The effect of one runtime-activity step on the application state. -/
def runtimeStepRun (st : AppState) : RuntimeStep → AppState
  | .cacheMaintenance now =>
    { st with sync :=
        { st.sync with store :=
            OfflineStorage.clearExpiredCache now OfflineStorage.defaultMaxAge st.sync.store } }
  | .periodicSync f now freshId =>
    { st with sync := (BackgroundSyncManager.performSync f now freshId st.sync).state }
  | .foregroundVisibility f now freshId =>
    { st with sync := (BackgroundSyncManager.performSync f now freshId st.sync).state }
  | .onlineResume f now freshId evs ts os =>
    let sync1 := (BackgroundSyncManager.performSync f now freshId st.sync).state
    { st with sync :=
        { sync1 with store := preloadCriticalData evs ts os now sync1.store } }
  | .swBackgroundSync succeeded =>
    { st with sync :=
        { st.sync with store :=
            { st.sync.store with failedRequests :=
                (st.sync.store.failedRequests.filter (fun r => !(succeeded r))) } } }

/-- A sequence of runtime-activity steps. -/
def runSteps (steps : List RuntimeStep) (st : AppState) : AppState :=
  steps.foldl runtimeStepRun st

/-! ## Derived notions used by the verification -/

namespace BackgroundSyncManager

/-- How the drain loop resolves one attempted operation: confirmed
success, terminal failure (retries exhausted), or a scheduled retry. -/
inductive OpClass
  | success
  | failExhausted
  | failRetry
deriving DecidableEq, Repr

/-- Whether an outcome makes `executeOperation` report success. -/
def isSuccessOutcome : NetOutcome → Bool
  | .netError _ => false
  | .http status _ _ => responseOk status

/-- The branch of the drain loop taken for `op` under outcome oracle `f`. -/
def opClass (f : SyncOperation → NetOutcome) (op : SyncOperation) : OpClass :=
  if isSuccessOutcome (f op) then .success
  else if op.retryCount + 1 ≥ op.maxRetries then .failExhausted
  else .failRetry

/-- The event the drain loop emits for `op`. -/
def opEvent (f : SyncOperation → NetOutcome) (op : SyncOperation) : SyncEvent :=
  match opClass f op with
  | .success => .syncSuccess op
  | .failExhausted => .syncFailed (bumpRetry op) (errorOf (f op))
  | .failRetry => .retryScheduled (bumpRetry op) (retryDelayFor (op.retryCount + 1))

/-- The cumulative effect of processing the snapshot `ops` on one element
of the live queue: removed if its operation succeeded or exhausted its
retries, bumped if a retry was scheduled, untouched otherwise. -/
def queueEffect (f : SyncOperation → NetOutcome) (ops : List SyncOperation)
    (o : SyncOperation) : Option SyncOperation :=
  match ops.find? (fun p => p.id == o.id) with
  | none => some o
  | some p =>
    match opClass f p with
    | .success => none
    | .failExhausted => none
    | .failRetry => some (bumpRetry o)

/-- The queue invariant maintained by the manager: every queued operation
still has retries left (operations are enqueued with `retryCount: 0` and
positive `maxRetries`, and removed the moment the count reaches the
limit), and ids are distinct (they are generated fresh per enqueue). -/
def QueueInv (q : List SyncOperation) : Prop :=
  (∀ op ∈ q, op.retryCount < op.maxRetries) ∧ (q.map (fun o => o.id)).Nodup

instance (q : List SyncOperation) : Decidable (QueueInv q) := by
  unfold QueueInv; infer_instance

/-- The retryable failure classes named by the spec's retry policy:
network errors, 5xx, 408 and 429. -/
def RetryableOutcome : NetOutcome → Prop
  | .netError _ => True
  | .http status _ _ => (500 ≤ status ∧ status ≤ 599) ∨ status = 408 ∨ status = 429

end BackgroundSyncManager

/-! ## Concrete sample inputs used by witnesses and counterexamples -/

/-- A freshly enqueued order-creation operation (retryCount 0). -/
def wOrderOp : SyncOperation :=
  { id := "op-1", type := .order, action := .create, data := none,
    endpoint := "/api/orders/create", method := "POST", priority := .high,
    retryCount := 0, maxRetries := 3, timestamp := 100 }

/-- A freshly enqueued low-priority preference update. -/
def wPrefOp : SyncOperation :=
  { id := "op-2", type := .userPreference, action := .update,
    data := some [("theme", "dark")], endpoint := "/api/users/preferences",
    method := "PATCH", priority := .low, retryCount := 0, maxRetries := 2,
    timestamp := 50 }

/-- An outcome oracle answering HTTP 404 to every attempt. -/
def wOracle404 : SyncOperation → NetOutcome :=
  fun _ => .http 404 "Not Found" {}

/-- An outcome oracle answering HTTP 503 to every attempt. -/
def wOracle503 : SyncOperation → NetOutcome :=
  fun _ => .http 503 "Service Unavailable" {}

/-- An outcome oracle answering HTTP 200 to every attempt. -/
def wOracle200 : SyncOperation → NetOutcome :=
  fun _ => .http 200 "OK" {}

/-- An idle manager state with the order operation queued. -/
def wState1 : BackgroundSyncManager.SyncState :=
  { syncInProgress := false, syncQueue := [wOrderOp], store := emptyStore }

/-- An idle manager state with both sample operations queued. -/
def wState2 : BackgroundSyncManager.SyncState :=
  { syncInProgress := false, syncQueue := [wPrefOp, wOrderOp], store := emptyStore }

/-- A cached event with `syncStatus: 'pending'` cached at epoch 0. -/
def wPendingEvent : StoredEvent :=
  { id := "ev-1", payload := "gig", cachedAt := 0, syncStatus := .pending }

/-- A store holding only the pending event. -/
def wPendingStore : Store := { emptyStore with events := [wPendingEvent] }

/-- A queued `ticket` update operation. -/
def wTicketOp : SyncOperation :=
  { id := "t-1", type := .ticket, action := .update, data := some [("status", "used")],
    endpoint := "/api/tickets/1", method := "PATCH", priority := .medium,
    retryCount := 0, maxRetries := 3, timestamp := 7 }

/-- A store with one cached order, to exhibit a non-empty store that a
`ticket` success leaves untouched. -/
def wOrderStore : Store :=
  { emptyStore with orders :=
      [{ id := "ord-9", payments := [], payload := "po", cachedAt := 3, syncStatus := .synced }] }

/-- A freshly enqueued payment operation. -/
def wPaymentOp : SyncOperation :=
  { id := "p-1", type := .payment, action := .create, data := some [("amount", "5")],
    endpoint := "/api/payments", method := "POST", priority := .high,
    retryCount := 0, maxRetries := 5, timestamp := 60 }

/-- A cart-creation operation. -/
def wCartOp : SyncOperation :=
  { id := "c-1", type := .cart, action := .create, data := none,
    endpoint := "/api/orders/cart", method := "POST", priority := .medium,
    retryCount := 0, maxRetries := 3, timestamp := 70 }

/-- A server-shaped ticket nested in an order-create response. -/
def wTicket1 : StoredTicket :=
  { id := "tk-1", orderId := "ord-9", payload := "pt", cachedAt := 0, syncStatus := .synced }

/-- A failed-request record that is both old and past its retries. -/
def wExhaustedRequest : FailedRequest :=
  { id := 1, url := "/api/orders/cart", method := "PUT", headers := [],
    body := none, timestamp := 0, retryCount := 3, maxRetries := 3 }

/-- A store holding the pending old event and the exhausted request. -/
def wC4Store : Store :=
  { emptyStore with events := [wPendingEvent], failedRequests := [wExhaustedRequest] }

/-- C2 scenario, success half: enqueue the order operation on an empty
manager, drain it successfully, then reload. -/
def wC2Start : BackgroundSyncManager.SyncState :=
  BackgroundSyncManager.addOperation wOrderOp
    { syncInProgress := false, syncQueue := [], store := emptyStore }

/-- The successful first drain pass of the C2 scenario. -/
def wC2Pass1 : BackgroundSyncManager.PassOutput :=
  BackgroundSyncManager.performSync wOracle200 0 "w" wC2Start

/-- The manager state after a reload (`loadPendingOperations`). -/
def wC2Reloaded : BackgroundSyncManager.SyncState :=
  BackgroundSyncManager.loadPendingOperations wC2Pass1.state

/-- The drain pass after the reload. -/
def wC2Pass2 : BackgroundSyncManager.PassOutput :=
  BackgroundSyncManager.performSync wOracle200 0 "w" wC2Reloaded

/-- C2 scenario, exhaustion half: enqueue the preference operation
(maxRetries 2) on an empty manager. -/
def wC2PrefStart : BackgroundSyncManager.SyncState :=
  BackgroundSyncManager.addOperation wPrefOp
    { syncInProgress := false, syncQueue := [], store := emptyStore }

/-- First drain pass: HTTP 404, retry scheduled. -/
def wC2PrefPass1 : BackgroundSyncManager.PassOutput :=
  BackgroundSyncManager.performSync wOracle404 0 "w" wC2PrefStart

/-- Second drain pass: HTTP 404 again, retries exhausted, SYNC_FAILED. -/
def wC2PrefPass2 : BackgroundSyncManager.PassOutput :=
  BackgroundSyncManager.performSync wOracle404 0 "w" wC2PrefPass1.state

/-- The state after a reload following the terminal failure. -/
def wC2PrefReloaded : BackgroundSyncManager.SyncState :=
  BackgroundSyncManager.loadPendingOperations wC2PrefPass2.state

/-- The drain pass after that reload. -/
def wC2PrefPass3 : BackgroundSyncManager.PassOutput :=
  BackgroundSyncManager.performSync wOracle404 0 "w" wC2PrefReloaded

/-! ## Drain-loop lemmas -/

namespace BackgroundSyncManager

theorem executeOperation_fst_success (op : SyncOperation) (o : NetOutcome)
    (now : Nat) (freshId : String) (s : Store) :
    (executeOperation op o now freshId s).1.success = isSuccessOutcome o := by
  cases o with
  | netError m => rfl
  | http status t r =>
    by_cases h : responseOk status <;> simp [executeOperation, isSuccessOutcome, h]

theorem executeOperation_fst_error (op : SyncOperation) (o : NetOutcome)
    (now : Nat) (freshId : String) (s : Store) :
    (executeOperation op o now freshId s).1.error = errorOf o := by
  cases o with
  | netError m => rfl
  | http status t r =>
    by_cases h : responseOk status <;> simp [executeOperation, errorOf, h]

theorem processOp_syncQueue (f : SyncOperation → NetOutcome) (now : Nat)
    (freshId : String) (ps : PassState) (op : SyncOperation) :
    (processOp f now freshId ps op).syncQueue =
      match opClass f op with
      | .failRetry =>
        ps.syncQueue.map (fun o => if o.id == op.id then bumpRetry o else o)
      | _ => ps.syncQueue.filter (fun o => o.id != op.id) := by
  simp only [processOp, opClass]
  rw [executeOperation_fst_success]
  by_cases hs : isSuccessOutcome (f op) = true
  · simp [hs]
  · by_cases hge : op.retryCount + 1 ≥ op.maxRetries <;>
      simp [hs, hge, bumpRetry]

theorem processOp_events (f : SyncOperation → NetOutcome) (now : Nat)
    (freshId : String) (ps : PassState) (op : SyncOperation) :
    (processOp f now freshId ps op).events = ps.events ++ [opEvent f op] := by
  simp only [processOp, opEvent, opClass]
  rw [executeOperation_fst_success, executeOperation_fst_error]
  by_cases hs : isSuccessOutcome (f op) = true
  · simp [hs]
  · by_cases hge : op.retryCount + 1 ≥ op.maxRetries <;>
      simp [hs, hge, bumpRetry]

theorem foldl_processOp_events (f : SyncOperation → NetOutcome) (now : Nat)
    (freshId : String) (ops : List SyncOperation) (ps : PassState) :
    (ops.foldl (processOp f now freshId) ps).events = ps.events ++ ops.map (opEvent f) := by
  induction ops generalizing ps with
  | nil => simp
  | cons op ops ih =>
    rw [List.foldl_cons, ih, processOp_events]
    simp

theorem filterMap_of_filter {α β : Type} (q : α → Bool) (g : α → Option β) (l : List α) :
    (l.filter q).filterMap g = l.filterMap (fun a => if q a then g a else none) := by
  induction l with
  | nil => rfl
  | cons a l ih =>
    by_cases h : q a
    · cases hg : g a <;> simp [List.filter_cons, h, List.filterMap_cons, hg, ih]
    · simp [List.filter_cons, h, List.filterMap_cons, ih]

theorem foldl_processOp_syncQueue (f : SyncOperation → NetOutcome) (now : Nat)
    (freshId : String) :
    ∀ (ops : List SyncOperation), ((ops.map (fun o => o.id)).Nodup) →
      ∀ (ps : PassState),
        (ops.foldl (processOp f now freshId) ps).syncQueue =
          ps.syncQueue.filterMap (queueEffect f ops)
  | [], _, ps => by
    have hqe : queueEffect f [] = fun o => some o := by
      funext o
      simp [queueEffect]
    rw [hqe]
    exact (List.filterMap_some ps.syncQueue).symm
  | p :: ops, hnd, ps => by
    rw [List.map_cons, List.nodup_cons] at hnd
    have hp : p.id ∉ ops.map (fun o => o.id) := hnd.1
    have hops : (ops.map (fun o => o.id)).Nodup := hnd.2
    rw [List.foldl_cons, foldl_processOp_syncQueue f now freshId ops hops,
      processOp_syncQueue]
    cases hc : opClass f p with
    | success =>
      rw [filterMap_of_filter]
      refine List.filterMap_congr (fun a _ => ?_)
      by_cases hid : p.id = a.id
      · simp [queueEffect, List.find?_cons, hid, hc]
      · have hid' : a.id ≠ p.id := fun h => hid h.symm
        simp [queueEffect, List.find?_cons, hid, hid']
    | failExhausted =>
      rw [filterMap_of_filter]
      refine List.filterMap_congr (fun a _ => ?_)
      by_cases hid : p.id = a.id
      · simp [queueEffect, List.find?_cons, hid, hc]
      · have hid' : a.id ≠ p.id := fun h => hid h.symm
        simp [queueEffect, List.find?_cons, hid, hid']
    | failRetry =>
      rw [List.filterMap_map]
      refine List.filterMap_congr (fun a _ => ?_)
      by_cases hid : a.id = p.id
      · have hfind : ops.find? (fun x => x.id == p.id) = none := by
          rw [List.find?_eq_none]
          intro x hx
          simp only [beq_iff_eq]
          intro hxa
          exact hp (hxa ▸ List.mem_map_of_mem (fun o => o.id) hx)
        simp [queueEffect, List.find?_cons, hid, hc, hfind, bumpRetry]
      · have hid' : (p.id == a.id) = false := by
          simp only [beq_eq_false_iff_ne, ne_eq]
          exact fun h => hid h.symm
        simp [queueEffect, List.find?_cons, hid, hid']

theorem performSync_attempts (f : SyncOperation → NetOutcome) (now : Nat)
    (freshId : String) (s : SyncState) (hflag : s.syncInProgress = false) :
    (performSync f now freshId s).attempts = sortQueue s.syncQueue := by
  unfold performSync
  by_cases hq : s.syncQueue = []
  · rw [if_pos (Or.inr hq)]
    simp [hq, sortQueue, List.insertionSort]
  · rw [if_neg (by simp [hflag, hq])]

theorem performSync_attempts_subset (f : SyncOperation → NetOutcome) (now : Nat)
    (freshId : String) (s : SyncState) :
    ∀ op ∈ (performSync f now freshId s).attempts, op ∈ s.syncQueue := by
  unfold performSync
  by_cases h : s.syncInProgress = true ∨ s.syncQueue = []
  · rw [if_pos h]
    intro op hop
    simp at hop
  · rw [if_neg h]
    intro op hop
    simpa [sortQueue] using hop

theorem performSync_events (f : SyncOperation → NetOutcome) (now : Nat)
    (freshId : String) (s : SyncState) (hflag : s.syncInProgress = false) :
    (performSync f now freshId s).events = (sortQueue s.syncQueue).map (opEvent f) := by
  unfold performSync
  by_cases hq : s.syncQueue = []
  · rw [if_pos (Or.inr hq)]
    simp [hq, sortQueue, List.insertionSort]
  · rw [if_neg (by simp [hflag, hq])]
    simpa using foldl_processOp_events f now freshId (sortQueue s.syncQueue) _

theorem performSync_state_syncQueue (f : SyncOperation → NetOutcome) (now : Nat)
    (freshId : String) (s : SyncState) (hflag : s.syncInProgress = false)
    (hnd : (s.syncQueue.map (fun o => o.id)).Nodup) :
    (performSync f now freshId s).state.syncQueue =
      s.syncQueue.filterMap (queueEffect f (sortQueue s.syncQueue)) := by
  unfold performSync
  by_cases hq : s.syncQueue = []
  · rw [if_pos (Or.inr hq)]
    simp [hq]
  · rw [if_neg (by simp [hflag, hq])]
    have hperm : (sortQueue s.syncQueue).Perm s.syncQueue := List.perm_insertionSort _ _
    have hnd' : ((sortQueue s.syncQueue).map (fun o => o.id)).Nodup :=
      ((hperm.map (fun o => o.id)).nodup_iff).mpr hnd
    simpa using foldl_processOp_syncQueue f now freshId (sortQueue s.syncQueue) hnd' _

theorem queueEffect_id (f : SyncOperation → NetOutcome) (ops : List SyncOperation)
    (o o' : SyncOperation) (h : queueEffect f ops o = some o') : o'.id = o.id := by
  unfold queueEffect at h
  cases hf : ops.find? (fun p => p.id == o.id) with
  | none =>
    rw [hf] at h
    cases h
    rfl
  | some p =>
    rw [hf] at h
    cases hc : opClass f p <;> simp [hc] at h <;> simp [← h, bumpRetry]

theorem queueEffect_sortQueue_self (f : SyncOperation → NetOutcome)
    {q : List SyncOperation} (hnd : (q.map (fun o => o.id)).Nodup)
    {op : SyncOperation} (hmem : op ∈ q) :
    queueEffect f (sortQueue q) op =
      match opClass f op with
      | .success => none
      | .failExhausted => none
      | .failRetry => some (bumpRetry op) := by
  unfold queueEffect
  cases hf : (sortQueue q).find? (fun p => p.id == op.id) with
  | none =>
    exfalso
    have := List.find?_eq_none.mp hf op
      (by rw [sortQueue, List.mem_insertionSort]; exact hmem)
    simp at this
  | some p =>
    have hpq : p ∈ q := by
      have := List.mem_of_find?_eq_some hf
      rwa [sortQueue, List.mem_insertionSort] at this
    have hpid : p.id = op.id := by simpa using List.find?_some hf
    have hpo : p = op := List.inj_on_of_nodup_map hnd hpq hmem hpid
    subst hpo
    rfl

theorem filterMap_map_key_sublist {α β : Type} (key : α → β) (g : α → Option α)
    (hg : ∀ a b, g a = some b → key b = key a) :
    ∀ (l : List α), List.Sublist ((l.filterMap g).map key) (l.map key)
  | [] => by simp
  | a :: l => by
    cases hga : g a with
    | none =>
      rw [List.filterMap_cons, hga, List.map_cons]
      exact (filterMap_map_key_sublist key g hg l).cons _
    | some b =>
      rw [List.filterMap_cons, hga, List.map_cons, List.map_cons, hg a b hga]
      exact (filterMap_map_key_sublist key g hg l).cons₂ _

theorem opClass_failRetry_iff (f : SyncOperation → NetOutcome) (op : SyncOperation) :
    opClass f op = .failRetry ↔
      (isSuccessOutcome (f op) = false ∧ op.retryCount + 1 < op.maxRetries) := by
  unfold opClass
  by_cases h1 : isSuccessOutcome (f op) = true <;>
    by_cases h2 : op.retryCount + 1 ≥ op.maxRetries <;>
      simp [h1, h2] <;> omega

theorem opClass_not_failRetry_iff (f : SyncOperation → NetOutcome) (op : SyncOperation) :
    ¬(opClass f op = .failRetry) ↔
      (isSuccessOutcome (f op) = true ∨ op.retryCount + 1 ≥ op.maxRetries) := by
  unfold opClass
  by_cases h1 : isSuccessOutcome (f op) = true <;>
    by_cases h2 : op.retryCount + 1 ≥ op.maxRetries <;>
      simp [h1, h2] <;> omega

theorem queueInv_performSync (f : SyncOperation → NetOutcome) (now : Nat)
    (freshId : String) (s : SyncState) (hInv : QueueInv s.syncQueue) :
    QueueInv (performSync f now freshId s).state.syncQueue := by
  by_cases hflag : s.syncInProgress = true
  · unfold performSync
    rw [if_pos (Or.inl hflag)]
    exact hInv
  · have hflag' : s.syncInProgress = false := by
      cases h : s.syncInProgress
      · rfl
      · exact absurd h hflag
    rw [performSync_state_syncQueue f now freshId s hflag' hInv.2]
    constructor
    · intro o' ho'
      obtain ⟨o, ho, hg⟩ := List.mem_filterMap.mp ho'
      rw [queueEffect_sortQueue_self f hInv.2 ho] at hg
      cases hc : opClass f o with
      | success => rw [hc] at hg; cases hg
      | failExhausted => rw [hc] at hg; cases hg
      | failRetry =>
        rw [hc] at hg
        cases hg
        have := (opClass_failRetry_iff f o).mp hc
        simpa [bumpRetry] using this.2
    · exact (filterMap_map_key_sublist (fun o => o.id) _
        (queueEffect_id f (sortQueue s.syncQueue)) s.syncQueue).nodup hInv.2

theorem id_mem_performSync_iff (f : SyncOperation → NetOutcome) (now : Nat)
    (freshId : String) (s : SyncState) (hflag : s.syncInProgress = false)
    (hInv : QueueInv s.syncQueue) (op : SyncOperation) (hmem : op ∈ s.syncQueue) :
    op.id ∈ ((performSync f now freshId s).state.syncQueue.map (fun o => o.id)) ↔
      opClass f op = .failRetry := by
  rw [performSync_state_syncQueue f now freshId s hflag hInv.2]
  constructor
  · intro h
    obtain ⟨o', ho', hido'⟩ := List.mem_map.mp h
    obtain ⟨o, ho, hg⟩ := List.mem_filterMap.mp ho'
    have hoid : o.id = op.id := (queueEffect_id f _ o o' hg) ▸ hido'
    have hoo : o = op := List.inj_on_of_nodup_map hInv.2 ho hmem hoid
    subst hoo
    rw [queueEffect_sortQueue_self f hInv.2 ho] at hg
    cases hc : opClass f o with
    | success => rw [hc] at hg; cases hg
    | failExhausted => rw [hc] at hg; cases hg
    | failRetry => rfl
  · intro hc
    have hg : queueEffect f (sortQueue s.syncQueue) op = some (bumpRetry op) := by
      rw [queueEffect_sortQueue_self f hInv.2 hmem, hc]
    exact List.mem_map.mpr
      ⟨bumpRetry op, List.mem_filterMap.mpr ⟨op, hmem, hg⟩, rfl⟩

theorem allAttempts_retryCount_lt (now : Nat) (freshId : String) :
    ∀ (fs : List (SyncOperation → NetOutcome)) (s : SyncState),
      QueueInv s.syncQueue →
      ∀ op ∈ allAttempts now freshId fs s, op.retryCount < op.maxRetries
  | [], s, _, op, h => by simp [allAttempts] at h
  | f :: fs, s, hInv, op, h => by
    rw [allAttempts] at h
    rcases List.mem_append.mp h with hl | hr
    · exact hInv.1 op (performSync_attempts_subset f now freshId s op hl)
    · exact allAttempts_retryCount_lt now freshId fs _
        (queueInv_performSync f now freshId s hInv) op hr

end BackgroundSyncManager

/-! ## Eviction-sweep lemmas (clearExpiredCache) -/

namespace OfflineStorage

theorem foldl_deleteEvent_store (cutoff : Nat) :
    ∀ (l : List StoredEvent) (st : Store),
      ∃ E, (l.foldl (fun st e => if e.cachedAt < cutoff then deleteEvent e.id st else st) st) =
        { st with events := E }
  | [], st => ⟨st.events, rfl⟩
  | e :: l, st => by
    rw [List.foldl_cons]
    by_cases h : e.cachedAt < cutoff
    · rw [if_pos h]
      obtain ⟨E, hE⟩ := foldl_deleteEvent_store cutoff l (deleteEvent e.id st)
      exact ⟨E, by rw [hE]; rfl⟩
    · rw [if_neg h]
      exact foldl_deleteEvent_store cutoff l st

theorem foldl_deleteEvent_mem (cutoff : Nat) :
    ∀ (l : List StoredEvent) (st : Store) (x : StoredEvent),
      (x ∈ (l.foldl (fun st e => if e.cachedAt < cutoff then deleteEvent e.id st else st) st).events ↔
        (x ∈ st.events ∧ ∀ e ∈ l, e.cachedAt < cutoff → e.id ≠ x.id))
  | [], st, x => by simp
  | e :: l, st, x => by
    rw [List.foldl_cons]
    by_cases h : e.cachedAt < cutoff
    · rw [if_pos h, foldl_deleteEvent_mem cutoff l _ x]
      simp only [deleteEvent, List.mem_filter, bne_iff_ne, ne_eq]
      constructor
      · rintro ⟨⟨hx, hne⟩, hall⟩
        refine ⟨hx, fun e' he' hc' => ?_⟩
        rcases List.mem_cons.mp he' with rfl | he'
        · exact fun hh => hne hh.symm
        · exact hall e' he' hc'
      · rintro ⟨hx, hall⟩
        refine ⟨⟨hx, fun hh => (hall e (List.mem_cons_self e l) h) hh.symm⟩, ?_⟩
        exact fun e' he' hc' => hall e' (List.mem_cons_of_mem e he') hc'
    · rw [if_neg h, foldl_deleteEvent_mem cutoff l st x]
      constructor
      · rintro ⟨hx, hall⟩
        refine ⟨hx, fun e' he' hc' => ?_⟩
        rcases List.mem_cons.mp he' with rfl | he'
        · exact absurd hc' h
        · exact hall e' he' hc'
      · rintro ⟨hx, hall⟩
        exact ⟨hx, fun e' he' hc' => hall e' (List.mem_cons_of_mem e he') hc'⟩

theorem removeFailedRequest_noop (id : Nat) (s : Store) :
    removeFailedRequest id s = s := by
  have h : s.failedRequests.filter
      (fun r => IDBKey.num r.id != IDBKey.str (toString id)) = s.failedRequests :=
    List.filter_eq_self.mpr (fun a _ => rfl)
  simp [removeFailedRequest, deleteFailedRequestByKey, h]

theorem updateFailedRequest_noop (id newRetryCount : Nat) (s : Store) :
    updateFailedRequest id newRetryCount s = s := by
  have h : getFailedRequestByKey (IDBKey.str (toString id)) s = none := by
    rw [getFailedRequestByKey, List.find?_eq_none]
    intro x hx
    simp
  simp only [updateFailedRequest, h]

theorem foldl_removeFailed_id (cutoff : Nat) :
    ∀ (l : List FailedRequest) (st : Store),
      (l.foldl (fun st r =>
        if r.timestamp < cutoff ∨ r.retryCount ≥ r.maxRetries then
          removeFailedRequest r.id st
        else st) st) = st
  | [], st => rfl
  | r :: l, st => by
    rw [List.foldl_cons]
    by_cases h : r.timestamp < cutoff ∨ r.retryCount ≥ r.maxRetries
    · rw [if_pos h, removeFailedRequest_noop]
      exact foldl_removeFailed_id cutoff l st
    · rw [if_neg h]
      exact foldl_removeFailed_id cutoff l st

end OfflineStorage

/-! ## Notification and success-handler lemmas -/

theorem putRecord_mem {α β : Type} [DecidableEq β] (key : α → β) (l : List α) (r : α) :
    r ∈ putRecord key l r := by
  unfold putRecord
  by_cases h : l.any (fun x => decide (key x = key r))
  · rw [if_pos h]
    obtain ⟨x, hx, hkx⟩ := List.any_eq_true.mp h
    refine List.mem_map.mpr ⟨x, hx, ?_⟩
    rw [if_pos (of_decide_eq_true hkx)]
  · rw [if_neg h]
    exact List.mem_append.mpr (Or.inr (List.mem_singleton.mpr rfl))

theorem runtimeStepRun_notif (st : AppState) (step : RuntimeStep) :
    (runtimeStepRun st step).notif = st.notif := by
  cases step <;> rfl

theorem runSteps_notif (steps : List RuntimeStep) :
    ∀ st : AppState, (runSteps steps st).notif = st.notif := by
  induction steps with
  | nil => intro st; rfl
  | cons step steps ih =>
    intro st
    show (runSteps steps (runtimeStepRun st step)).notif = st.notif
    rw [ih, runtimeStepRun_notif]

theorem foldl_cacheTicket_store (now : Nat) :
    ∀ (ts : List StoredTicket) (st : Store),
      ∃ T, (ts.foldl (fun st t => OfflineStorage.cacheTicket t now st) st) =
        { st with tickets := T }
  | [], st => ⟨st.tickets, rfl⟩
  | t :: ts, st => by
    rw [List.foldl_cons]
    obtain ⟨T, hT⟩ := foldl_cacheTicket_store now ts (OfflineStorage.cacheTicket t now st)
    exact ⟨T, by rw [hT]; rfl⟩

theorem foldl_deleteEvent_proj (cutoff : Nat) (l : List StoredEvent) (st : Store) :
    ((l.foldl (fun st e => if e.cachedAt < cutoff then OfflineStorage.deleteEvent e.id st else st) st).orders = st.orders) ∧
    ((l.foldl (fun st e => if e.cachedAt < cutoff then OfflineStorage.deleteEvent e.id st else st) st).tickets = st.tickets) ∧
    ((l.foldl (fun st e => if e.cachedAt < cutoff then OfflineStorage.deleteEvent e.id st else st) st).failedRequests = st.failedRequests) ∧
    ((l.foldl (fun st e => if e.cachedAt < cutoff then OfflineStorage.deleteEvent e.id st else st) st).preferences = st.preferences) ∧
    ((l.foldl (fun st e => if e.cachedAt < cutoff then OfflineStorage.deleteEvent e.id st else st) st).cartItems = st.cartItems) := by
  obtain ⟨E, hE⟩ := OfflineStorage.foldl_deleteEvent_store cutoff l st
  rw [hE]
  exact ⟨rfl, rfl, rfl, rfl, rfl⟩

theorem putRecord_mem_of_ne {α β : Type} [DecidableEq β] (key : α → β)
    (l : List α) (r x : α) (hx : x ∈ l) (hne : key x ≠ key r) :
    x ∈ putRecord key l r := by
  unfold putRecord
  by_cases h : l.any (fun y => decide (key y = key r))
  · rw [if_pos h]
    refine List.mem_map.mpr ⟨x, hx, ?_⟩
    rw [if_neg hne]
  · rw [if_neg h]
    exact List.mem_append.mpr (Or.inl hx)

theorem foldl_cacheTicket_mem_of_notin (now : Nat) :
    ∀ (ts : List StoredTicket) (st : Store) (x : StoredTicket),
      x ∈ st.tickets → x.id ∉ ts.map (fun t => t.id) →
      x ∈ (ts.foldl (fun st t => OfflineStorage.cacheTicket t now st) st).tickets
  | [], st, x, hx, _ => hx
  | t :: ts, st, x, hx, hn => by
    rw [List.foldl_cons]
    rw [List.map_cons] at hn
    refine foldl_cacheTicket_mem_of_notin now ts _ x ?_
      (fun h => hn (List.mem_cons_of_mem _ h))
    exact putRecord_mem_of_ne _ _ _ _ hx
      (fun h => hn (List.mem_cons.mpr (Or.inl h)))

theorem foldl_cacheTicket_mem (now : Nat) :
    ∀ (ts : List StoredTicket) (st : Store), ((ts.map (fun t => t.id)).Nodup) →
      ∀ t ∈ ts, ({ t with cachedAt := now, syncStatus := SyncStatus.synced } ∈
        (ts.foldl (fun st t => OfflineStorage.cacheTicket t now st) st).tickets)
  | [], st, _, t, ht => absurd ht (List.not_mem_nil t)
  | u :: ts, st, hnd, t, ht => by
    rw [List.map_cons, List.nodup_cons] at hnd
    rw [List.foldl_cons]
    rcases List.mem_cons.mp ht with rfl | ht
    · exact foldl_cacheTicket_mem_of_notin now ts _ _
        (putRecord_mem _ _ _) (fun h => hnd.1 h)
    · exact foldl_cacheTicket_mem now ts _ hnd.2 t ht

/-! ## The claims -/

open BackgroundSyncManager

/-- C1: Scenario B input — a queued operation (retryCount 0, maxRetries 3)
whose drain attempt receives HTTP 404.  The claim (and the spec's retry
policy) says the 4xx is terminal: `retryCount` unchanged, operation
removed and reported via `SYNC_FAILED`, no retry scheduled.  This theorem
evaluates the code at exactly that input and records what it actually
does: `retryCount` is incremented to 1, the operation stays in the queue,
a 1000 ms retry is scheduled, and no `SYNC_FAILED` is emitted — even
though the code's own classifier `SyncUtils.shouldRetry` answers `false`
for this very error.  `performSync` never consults `shouldRetry`, which
supports the code-bug verdict. -/
theorem c1_http404_retried_despite_classifier :
    (performSync wOracle404 5000 "w" wState1).state.syncQueue = [bumpRetry wOrderOp] ∧
    (performSync wOracle404 5000 "w" wState1).events =
      [SyncEvent.retryScheduled (bumpRetry wOrderOp) 1000] ∧
    (performSync wOracle404 5000 "w" wState1).scheduledDelays = [1000] ∧
    SyncUtils.shouldRetry wOrderOp "HTTP 404: Not Found" = false :=
  ⟨by decide, by decide, by decide, by decide⟩

/-- C3: while a drain pass is marked in progress
(`syncInProgress = true`), triggering `performSync` again is a complete
no-op: it returns `[]`, performs zero network attempts, emits no events,
schedules nothing and leaves the whole state untouched — a second
trigger is neither queued nor re-entered, so concurrent drains cannot
double-deliver an operation. -/
theorem c3_second_drain_is_noop (f : SyncOperation → NetOutcome) (now : Nat)
    (freshId : String) (s : SyncState) (h : s.syncInProgress = true) :
    performSync f now freshId s =
      { results := [], attempts := [], events := [], scheduledDelays := [],
        state := s } := by
  unfold performSync
  rw [if_pos (Or.inl h)]

/-- Witness for C3: a busy state with a queued operation; the second
trigger does nothing. -/
theorem c3_second_drain_is_noop_witness :
    (({ syncInProgress := true, syncQueue := [wOrderOp], store := emptyStore } : SyncState).syncInProgress = true) ∧
    performSync wOracle200 0 "w"
        { syncInProgress := true, syncQueue := [wOrderOp], store := emptyStore } =
      { results := [], attempts := [], events := [], scheduledDelays := [],
        state := { syncInProgress := true, syncQueue := [wOrderOp], store := emptyStore } } :=
  ⟨rfl, c3_second_drain_is_noop wOracle200 0 "w" _ rfl⟩

/-- C4 counterexample: the eviction sweep deletes a cached event whose
`syncStatus` is `'pending'` as soon as it is older than the max-age —
`clearExpiredCache` never consults `syncStatus` (offline-storage.ts
lines 449–455) — while a failed-request entry whose `retryCount` has
reached `maxRetries` (and which is older than the max-age) survives the
sweep, because `removeFailedRequest` deletes by the string rendering of
the numeric auto-increment key and removes nothing. -/
theorem c4_counterexample :
    wPendingEvent.syncStatus = SyncStatus.pending ∧
    wPendingEvent ∈ wC4Store.events ∧
    (OfflineStorage.clearExpiredCache 691200000 OfflineStorage.defaultMaxAge
        wC4Store).events = [] ∧
    wExhaustedRequest.retryCount ≥ wExhaustedRequest.maxRetries ∧
    (OfflineStorage.clearExpiredCache 691200000 OfflineStorage.defaultMaxAge
        wC4Store).failedRequests = [wExhaustedRequest] :=
  ⟨rfl, by decide, by decide, by decide, by decide⟩

/-- C4 as amended: the sweep removes exactly the cached events older than
the max-age (default 7 days) — regardless of their `syncStatus`, so
`pending` entries are removed like any others.  Its failed-request
cleanup is ineffective: `removeFailedRequest(request.id!)` deletes with
the string key `id.toString()`, which never matches the numeric
auto-increment keys, so the `failed-requests` partition is left exactly
as it was (entries past `maxRetries` included); the other partitions are
not swept. -/
theorem c4_eviction_behavior (now maxAge : Nat) (s : Store)
    (hev : (s.events.map (fun e => e.id)).Nodup) :
    (∀ e, e ∈ (OfflineStorage.clearExpiredCache now maxAge s).events ↔
      (e ∈ s.events ∧ ¬ e.cachedAt < now - maxAge)) ∧
    ((OfflineStorage.clearExpiredCache now maxAge s).failedRequests = s.failedRequests) ∧
    ((OfflineStorage.clearExpiredCache now maxAge s).orders = s.orders) ∧
    ((OfflineStorage.clearExpiredCache now maxAge s).tickets = s.tickets) ∧
    ((OfflineStorage.clearExpiredCache now maxAge s).preferences = s.preferences) ∧
    ((OfflineStorage.clearExpiredCache now maxAge s).cartItems = s.cartItems) ∧
    OfflineStorage.defaultMaxAge = 7 * 24 * 60 * 60 * 1000 := by
  simp only [OfflineStorage.clearExpiredCache]
  rw [OfflineStorage.foldl_removeFailed_id]
  have hev1 := foldl_deleteEvent_proj (now - maxAge) s.events s
  refine ⟨?_, hev1.2.2.1, hev1.1, hev1.2.1, hev1.2.2.2.1, hev1.2.2.2.2, rfl⟩
  intro e
  rw [OfflineStorage.foldl_deleteEvent_mem]
  constructor
  · rintro ⟨hx, hall⟩
    exact ⟨hx, fun hc => (hall e hx hc) rfl⟩
  · rintro ⟨hx, hnc⟩
    refine ⟨hx, fun e' he' hc' hid => ?_⟩
    have he : e' = e := List.inj_on_of_nodup_map hev he' hx hid
    subst he
    exact hnc hc'

/-- Witness for C4 (amended): evaluating the sweep on a store holding the
pending event and the exhausted request — the event survives a sweep at
a time before the cutoff, and the failed request is untouched. -/
theorem c4_eviction_behavior_witness :
    ((wC4Store.events.map (fun e => e.id)).Nodup) ∧
    (wPendingEvent ∈ (OfflineStorage.clearExpiredCache 100 OfflineStorage.defaultMaxAge wC4Store).events ↔
      (wPendingEvent ∈ wC4Store.events ∧
        ¬ wPendingEvent.cachedAt < 100 - OfflineStorage.defaultMaxAge)) ∧
    ((OfflineStorage.clearExpiredCache 100 OfflineStorage.defaultMaxAge wC4Store).failedRequests =
      wC4Store.failedRequests) :=
  ⟨by decide,
    (c4_eviction_behavior 100 OfflineStorage.defaultMaxAge wC4Store (by decide)).1
      wPendingEvent,
    (c4_eviction_behavior 100 OfflineStorage.defaultMaxAge wC4Store (by decide)).2.1⟩

/-- C5: the Cache Strategy Engine handlers are total functions of the
request, the network outcome (`none` models a rejected fetch, so network
errors are data rather than exceptions) and the cache state — every path
produces a response object.  In the two offline scenarios the claim
singles out: an API GET whose fetch fails with no cached copy resolves
to the synthesized JSON payload carrying the sentinel `offline: true`
with status 503, and a static-asset GET with no cache entry and no
network resolves to a 503 response rather than a thrown error. -/
theorem c5_offline_responses (url : String) (fetched : Option SW.SWResponse)
    (cs : SW.CacheState) :
    (fetched = none → SW.cachesLookup cs url = none →
      ((SW.handleApiRequest url fetched cs).1.status = 503 ∧
        (SW.handleApiRequest url fetched cs).1.offline = true ∧
        (SW.handleApiRequest url fetched cs).1 = SW.offlineApiResponse)) ∧
    (fetched = none → SW.cacheLookup cs.staticCache url = none →
      ((SW.handleStaticRequest url fetched cs).1.status = 503 ∧
        (SW.handleStaticRequest url fetched cs).1 = SW.offlineAssetResponse)) := by
  constructor
  · rintro rfl hmiss
    simp [SW.handleApiRequest, hmiss, SW.offlineApiResponse]
  · rintro rfl hmiss
    simp [SW.handleStaticRequest, hmiss, SW.offlineAssetResponse]

/-- Witness for C5: offline API GET and static GET against empty caches. -/
theorem c5_offline_responses_witness :
    ((SW.handleApiRequest "/api/events" none
        { staticCache := [], dynamicCache := [] }).1.status = 503 ∧
      (SW.handleApiRequest "/api/events" none
        { staticCache := [], dynamicCache := [] }).1.offline = true ∧
      (SW.handleApiRequest "/api/events" none
        { staticCache := [], dynamicCache := [] }).1 = SW.offlineApiResponse) ∧
    ((SW.handleStaticRequest "/_next/static/app.js" none
        { staticCache := [], dynamicCache := [] }).1.status = 503 ∧
      (SW.handleStaticRequest "/_next/static/app.js" none
        { staticCache := [], dynamicCache := [] }).1 = SW.offlineAssetResponse) :=
  ⟨(c5_offline_responses "/api/events" none
      { staticCache := [], dynamicCache := [] }).1 rfl rfl,
    (c5_offline_responses "/_next/static/app.js" none
      { staticCache := [], dynamicCache := [] }).2 rfl rfl⟩

/-- C2: evaluation of the full lifecycle at the claim's own scenario,
showing the claim false of the code.  Success half: an order operation
is enqueued (persisting a failed-request record), drained with a 2xx
response, and `SYNC_SUCCESS` is emitted with the in-memory queue
emptied — but `removePendingOperation`'s delete uses `id.toString()`
against the numeric auto-increment key, so the durable record survives;
after a reload, `loadPendingOperations` re-enqueues the already-resolved
operation and the next drain performs a further network attempt for it.
Exhaustion half: a preference operation (maxRetries 2) fails twice,
`SYNC_FAILED` is emitted and it leaves the in-memory queue — yet its
record (whose stored `retryCount` was never updated, for the same
key-type reason) is re-enqueued on reload with `retryCount` back at 0
and attempted again.  Both halves contradict "removed exactly once" and
"no further network attempt is ever made". -/
theorem c2_resolved_operations_reattempted_after_reload :
    (wC2Pass1.events = [SyncEvent.syncSuccess wOrderOp]) ∧
    (wC2Pass1.state.syncQueue = []) ∧
    (wC2Pass1.state.store.failedRequests.map (fun r => r.url) =
      ["/api/orders/create"]) ∧
    (wC2Reloaded.syncQueue.map (fun o => o.endpoint) = ["/api/orders/create"]) ∧
    (wC2Pass2.attempts.map (fun o => o.endpoint) = ["/api/orders/create"]) ∧
    (wC2PrefPass2.events =
      [SyncEvent.syncFailed (bumpRetry (bumpRetry wPrefOp))
        (some "HTTP 404: Not Found")]) ∧
    (wC2PrefPass2.state.syncQueue = []) ∧
    (wC2PrefReloaded.syncQueue.map (fun o => o.endpoint) =
      ["/api/users/preferences"]) ∧
    (wC2PrefReloaded.syncQueue.map (fun o => o.retryCount) = [0]) ∧
    (wC2PrefPass3.attempts.map (fun o => o.endpoint) =
      ["/api/users/preferences"]) :=
  ⟨by decide, by decide, by decide, by decide, by decide,
    by decide, by decide, by decide, by decide, by decide⟩

/-- C6: when a drain is triggered on an idle manager, the operations
attempted are exactly the queue sorted by the comparator — a permutation
of the queue — and the processing order respects `(priority desc,
enqueuedAt asc)`: whenever `a` is attempted before `b`, `b`'s priority
rank does not exceed `a`'s, and if the ranks are equal then `a` was
enqueued no later than `b` (FIFO within a tier).  In particular a
high-priority operation is always attempted before any lower-priority
one. -/
theorem c6_priority_then_fifo (f : SyncOperation → NetOutcome) (now : Nat)
    (freshId : String) (s : SyncState) (hflag : s.syncInProgress = false) :
    ((performSync f now freshId s).attempts = sortQueue s.syncQueue) ∧
    ((sortQueue s.syncQueue).Perm s.syncQueue) ∧
    (∀ pre a mid b post,
      (performSync f now freshId s).attempts = pre ++ a :: (mid ++ b :: post) →
        priorityOrder b.priority ≤ priorityOrder a.priority ∧
        (priorityOrder a.priority = priorityOrder b.priority →
          a.timestamp ≤ b.timestamp)) := by
  refine ⟨performSync_attempts f now freshId s hflag,
    List.perm_insertionSort _ _, ?_⟩
  intro pre a mid b post hsplit
  rw [performSync_attempts f now freshId s hflag] at hsplit
  have hsorted : List.Pairwise syncLE (sortQueue s.syncQueue) :=
    List.sorted_insertionSort syncLE s.syncQueue
  rw [hsplit] at hsorted
  have hpair : List.Pairwise syncLE (a :: (mid ++ b :: post)) :=
    ((List.pairwise_append.mp hsorted).2).1
  have hrel : syncLE a b :=
    List.rel_of_pairwise_cons hpair
      (List.mem_append_right mid (List.mem_cons_self b post))
  rcases hrel with h | ⟨h1, h2⟩
  · refine ⟨Nat.le_of_lt h, fun he => absurd h ?_⟩
    rw [he]
    exact lt_irrefl _
  · exact ⟨Nat.le_of_eq h1, fun _ => h2⟩

/-- Witness for C6: the low-priority operation was enqueued first, yet
the high-priority one is attempted first. -/
theorem c6_priority_then_fifo_witness :
    (wState2.syncInProgress = false) ∧
    (((performSync wOracle200 0 "w" wState2).attempts = sortQueue wState2.syncQueue) ∧
      ((sortQueue wState2.syncQueue).Perm wState2.syncQueue) ∧
      (∀ pre a mid b post,
        (performSync wOracle200 0 "w" wState2).attempts = pre ++ a :: (mid ++ b :: post) →
          priorityOrder b.priority ≤ priorityOrder a.priority ∧
          (priorityOrder a.priority = priorityOrder b.priority →
            a.timestamp ≤ b.timestamp))) :=
  ⟨rfl, c6_priority_then_fifo wOracle200 0 "w" wState2 rfl⟩

/-- C7: an operation whose attempt fails with a retryable error (network
error, 5xx, 408 or 429) and which has not exhausted `maxRetries` stays
in the queue with `retryCount` incremented, and a retry is scheduled
whose delay is drawn from the fixed sequence 1 s, 5 s, 15 s, 30 s, 60 s,
indexed by the failures so far (the pre-failure `retryCount`) and capped
at the last entry. -/
theorem c7_backoff_schedule (f : SyncOperation → NetOutcome) (now : Nat)
    (freshId : String) (s : SyncState) (op : SyncOperation)
    (hflag : s.syncInProgress = false) (hInv : QueueInv s.syncQueue)
    (hmem : op ∈ s.syncQueue) (hretry : RetryableOutcome (f op))
    (hleft : op.retryCount + 1 < op.maxRetries) :
    (bumpRetry op ∈ (performSync f now freshId s).state.syncQueue) ∧
    (SyncEvent.retryScheduled (bumpRetry op)
        (retryDelays.getD (min op.retryCount (retryDelays.length - 1)) 0) ∈
      (performSync f now freshId s).events) ∧
    retryDelays = [1000, 5000, 15000, 30000, 60000] := by
  have hfail : isSuccessOutcome (f op) = false := by
    cases hf : f op with
    | netError m => rfl
    | http status t r =>
      have hr : (500 ≤ status ∧ status ≤ 599) ∨ status = 408 ∨ status = 429 := by
        rw [hf] at hretry
        exact hretry
      show responseOk status = false
      unfold responseOk
      simp only [Bool.and_eq_false_iff, decide_eq_false_iff_not]
      omega
  have hclass : opClass f op = .failRetry :=
    (opClass_failRetry_iff f op).mpr ⟨hfail, hleft⟩
  refine ⟨?_, ?_, rfl⟩
  · rw [performSync_state_syncQueue f now freshId s hflag hInv.2]
    refine List.mem_filterMap.mpr ⟨op, hmem, ?_⟩
    rw [queueEffect_sortQueue_self f hInv.2 hmem, hclass]
  · rw [performSync_events f now freshId s hflag]
    refine List.mem_map.mpr ⟨op, ?_, ?_⟩
    · rw [sortQueue, List.mem_insertionSort]
      exact hmem
    · unfold opEvent
      rw [hclass]
      unfold retryDelayFor
      simp

/-- Witness for C7: first failure of the order operation under HTTP 503 —
the operation stays queued with `retryCount = 1` and the 1000 ms delay
(index 0 of the sequence) is scheduled. -/
theorem c7_backoff_schedule_witness :
    (QueueInv wState1.syncQueue) ∧ (wOrderOp ∈ wState1.syncQueue) ∧
    ((bumpRetry wOrderOp ∈ (performSync wOracle503 0 "w" wState1).state.syncQueue) ∧
      (SyncEvent.retryScheduled (bumpRetry wOrderOp)
          (retryDelays.getD (min wOrderOp.retryCount (retryDelays.length - 1)) 0) ∈
        (performSync wOracle503 0 "w" wState1).events) ∧
      retryDelays = [1000, 5000, 15000, 30000, 60000]) :=
  ⟨by decide, by decide,
    c7_backoff_schedule wOracle503 0 "w" wState1 wOrderOp rfl (by decide) (by decide)
      (show (500 ≤ 503 ∧ 503 ≤ 599) ∨ 503 = 408 ∨ 503 = 429 from Or.inl (by decide))
      (by decide)⟩

/-- C8 counterexample: the success handler's `switch (operation.type)`
has no `ticket` case, so a successfully synced `ticket` operation leaves
the Durable Store completely unchanged — the `ticket` member of the type
enum is silently ignored, contradicting the claimed exhaustiveness. -/
theorem c8_counterexample :
    wTicketOp.type = OpType.ticket ∧
    handleSuccessfulOperation wTicketOp
      { raw := "resp", orderId := some "ord-9" } 50 "cart-1" wOrderStore =
      wOrderStore :=
  ⟨rfl, rfl⟩

/-- C8 as amended: the success handler's type dispatch covers `order`,
`payment`, `cart` and `user-preference` but not `ticket`: a `ticket`
operation's response is dropped with no store update.  For the covered
cases the claim's examples hold: an `order` create whose response
carries an order caches that order (stamped `synced`) and caches every
nested ticket of the response alongside it; a `payment` success whose
response names a cached order appends the raw response to that order's
`payments` and re-caches it; a `cart` create adds the raw response to
the offline cart; and a `user-preference` update writes each entry of
the payload through `setUserPreference`. -/
theorem c8_dispatch_not_exhaustive (op : SyncOperation) (resp : SyncResponse)
    (now : Nat) (freshId : String) (s : Store) :
    (op.type = OpType.ticket →
      handleSuccessfulOperation op resp now freshId s = s) ∧
    (op.type = OpType.order → op.action = OpAction.create →
      ∀ o, resp.order = some o →
        ({ o with cachedAt := now, syncStatus := SyncStatus.synced } ∈
          (handleSuccessfulOperation op resp now freshId s).orders)) ∧
    (op.type = OpType.order → op.action = OpAction.create →
      ∀ o, resp.order = some o → ∀ ts, resp.tickets = some ts →
        (handleSuccessfulOperation op resp now freshId s =
          ts.foldl (fun st t => OfflineStorage.cacheTicket t now st)
            (OfflineStorage.cacheOrder o now s)) ∧
        ((ts.map (fun t => t.id)).Nodup → ∀ t ∈ ts,
          ({ t with cachedAt := now, syncStatus := SyncStatus.synced } ∈
            (handleSuccessfulOperation op resp now freshId s).tickets))) ∧
    (op.type = OpType.payment →
      ∀ oid, resp.orderId = some oid →
        ∀ o, s.orders.find? (fun x => x.id == oid) = some o →
          handleSuccessfulOperation op resp now freshId s =
            OfflineStorage.cacheOrder
              { o with payments := o.payments ++ [{ raw := resp.raw }] } now s) ∧
    (op.type = OpType.cart → op.action = OpAction.create →
      handleSuccessfulOperation op resp now freshId s =
        OfflineStorage.addToOfflineCart resp.raw freshId now s) ∧
    (op.type = OpType.userPreference → op.action = OpAction.update →
      ∀ entries, op.data = some entries →
        handleSuccessfulOperation op resp now freshId s =
          entries.foldl
            (fun st kv => OfflineStorage.setUserPreference kv.1 kv.2 now st) s) := by
  refine ⟨?_, ?_, ?_, ?_, ?_, ?_⟩
  · intro ht
    simp [handleSuccessfulOperation, ht]
  · intro ht ha o ho
    cases hts : resp.tickets with
    | none =>
      simp only [handleSuccessfulOperation, ht, ha, ho, hts, if_pos]
      exact putRecord_mem _ _ _
    | some ts =>
      simp only [handleSuccessfulOperation, ht, ha, ho, hts, if_pos]
      obtain ⟨T, hT⟩ := foldl_cacheTicket_store now ts
        (OfflineStorage.cacheOrder o now s)
      rw [hT]
      exact putRecord_mem _ _ _
  · intro ht ha o ho ts hts
    have heq : handleSuccessfulOperation op resp now freshId s =
        ts.foldl (fun st t => OfflineStorage.cacheTicket t now st)
          (OfflineStorage.cacheOrder o now s) := by
      simp only [handleSuccessfulOperation, ht, ha, ho, hts, if_pos]
    refine ⟨heq, fun hnd t htm => ?_⟩
    rw [heq]
    exact foldl_cacheTicket_mem now ts _ hnd t htm
  · intro ht oid hoid o hfind
    simp only [handleSuccessfulOperation, ht, hoid, hfind]
  · intro ht ha
    simp [handleSuccessfulOperation, ht, ha]
  · intro ht ha entries hd
    simp [handleSuccessfulOperation, ht, ha, hd]

/-- Witness for C8 (amended), instantiating every case: the ticket
operation leaves the store unchanged; an order create caches the
response order and its nested ticket; a payment appends to the cached
order's payments; a cart create adds to the offline cart; a preference
update writes the payload entries. -/
theorem c8_dispatch_not_exhaustive_witness :
    (handleSuccessfulOperation wTicketOp { raw := "x" } 5 "c" emptyStore = emptyStore) ∧
    ({ (⟨"ord-9", [], "po", 3, SyncStatus.synced⟩ : StoredOrder) with
        cachedAt := 9, syncStatus := SyncStatus.synced } ∈
      (handleSuccessfulOperation wOrderOp
        { order := some ⟨"ord-9", [], "po", 3, SyncStatus.synced⟩ } 9 "c" emptyStore).orders) ∧
    ({ wTicket1 with cachedAt := 9, syncStatus := SyncStatus.synced } ∈
      (handleSuccessfulOperation wOrderOp
        { order := some ⟨"ord-9", [], "po", 3, SyncStatus.synced⟩,
          tickets := some [wTicket1] } 9 "c" emptyStore).tickets) ∧
    (handleSuccessfulOperation wPaymentOp
        { orderId := some "ord-9", raw := "payresp" } 7 "c" wOrderStore =
      OfflineStorage.cacheOrder
        { (⟨"ord-9", [], "po", 3, SyncStatus.synced⟩ : StoredOrder) with
            payments := [{ raw := "payresp" }] } 7 wOrderStore) ∧
    (handleSuccessfulOperation wCartOp { raw := "item" } 8 "cart-77" emptyStore =
      OfflineStorage.addToOfflineCart "item" "cart-77" 8 emptyStore) ∧
    (handleSuccessfulOperation wPrefOp { raw := "y" } 11 "c" emptyStore =
      [("theme", "dark")].foldl
        (fun st kv => OfflineStorage.setUserPreference kv.1 kv.2 11 st) emptyStore) :=
  ⟨(c8_dispatch_not_exhaustive wTicketOp { raw := "x" } 5 "c" emptyStore).1 rfl,
    (c8_dispatch_not_exhaustive wOrderOp
      { order := some ⟨"ord-9", [], "po", 3, SyncStatus.synced⟩ } 9 "c" emptyStore).2.1
      rfl rfl ⟨"ord-9", [], "po", 3, SyncStatus.synced⟩ rfl,
    ((c8_dispatch_not_exhaustive wOrderOp
      { order := some ⟨"ord-9", [], "po", 3, SyncStatus.synced⟩,
        tickets := some [wTicket1] } 9 "c" emptyStore).2.2.1
      rfl rfl ⟨"ord-9", [], "po", 3, SyncStatus.synced⟩ rfl [wTicket1] rfl).2
      (by decide) wTicket1 (by decide),
    (c8_dispatch_not_exhaustive wPaymentOp
      { orderId := some "ord-9", raw := "payresp" } 7 "c" wOrderStore).2.2.2.1
      rfl "ord-9" rfl ⟨"ord-9", [], "po", 3, SyncStatus.synced⟩ (by decide),
    (c8_dispatch_not_exhaustive wCartOp { raw := "item" } 8 "cart-77" emptyStore).2.2.2.2.1
      rfl rfl,
    (c8_dispatch_not_exhaustive wPrefOp { raw := "y" } 11 "c" emptyStore).2.2.2.2.2
      rfl rfl [("theme", "dark")] rfl⟩

/-- C9: `scheduleEventReminder` stores a future reminder in the
`scheduled-notifications` store (notification.ts says "for service
worker to handle"), but no handler in the repository ever reads that
store: across any sequence of runtime-activity steps (cache
maintenance, periodic sync, foreground visibility, reconnect, service
worker background sync) the notification state is untouched — the
reminder is never fired (the fired log stays as it was) and never
removed.  This contradicts the claim that a due reminder is fired
exactly once and then removed, and supports the code-bug verdict. -/
theorem c9_reminder_never_fired (steps : List RuntimeStep) (st st1 : AppState)
    (eventTitle : String) (eventDate : Int) (eventId : String)
    (reminderTime now : Int)
    (hfuture : now < eventDate - reminderTime)
    (h1 : st1 = { st with notif :=
        (NotificationManager.scheduleEventReminder eventTitle eventDate eventId
          reminderTime now st.notif) }) :
    ((runSteps steps st1).notif = st1.notif) ∧
    (∃ r ∈ (runSteps steps st1).notif.scheduled,
        r.id = "reminder-" ++ eventId ++ "-" ++ toString reminderTime ∧
        r.reminderTime = eventDate - reminderTime ∧ r.type = "event-reminder") ∧
    ((runSteps steps st1).notif.fired = st.notif.fired) := by
  have hsched : NotificationManager.scheduleEventReminder eventTitle eventDate eventId
      reminderTime now st.notif =
      { st.notif with scheduled :=
          (putRecord (fun n => n.id) st.notif.scheduled
            { id := "reminder-" ++ eventId ++ "-" ++ toString reminderTime,
              eventTitle := eventTitle, eventDate := eventDate, eventId := eventId,
              reminderTime := eventDate - reminderTime, type := "event-reminder" }) } := by
    simp only [NotificationManager.scheduleEventReminder]
    rw [if_neg (by omega)]
  refine ⟨runSteps_notif steps st1, ?_, ?_⟩
  · rw [runSteps_notif steps st1, h1]
    show ∃ r ∈ (NotificationManager.scheduleEventReminder eventTitle eventDate eventId
        reminderTime now st.notif).scheduled, _
    rw [hsched]
    exact ⟨_, putRecord_mem _ _ _, rfl, rfl, rfl⟩
  · rw [runSteps_notif steps st1, h1]
    show (NotificationManager.scheduleEventReminder eventTitle eventDate eventId
        reminderTime now st.notif).fired = st.notif.fired
    rw [hsched]

/-- Witness for C9: Scenario E shape — a reminder due 400 000 ms after
epoch scheduled at t = 100 000, followed by runtime activity well past
the due time (hourly maintenance and a foreground sync at t = 900 000);
the reminder is still stored and nothing was fired. -/
theorem c9_reminder_never_fired_witness :
    ((100000 : Int) < 1000000 - 600000) ∧
    (((runSteps [RuntimeStep.cacheMaintenance 900000,
          RuntimeStep.foregroundVisibility wOracle200 900000 "w"]
        { sync := { syncInProgress := false, syncQueue := [], store := emptyStore },
          notif := NotificationManager.scheduleEventReminder "Gig" 1000000 "e1"
            600000 100000 { scheduled := [], fired := [] } }).notif =
      ({ sync := { syncInProgress := false, syncQueue := [], store := emptyStore },
          notif := NotificationManager.scheduleEventReminder "Gig" 1000000 "e1"
            600000 100000 { scheduled := [], fired := [] } } : AppState).notif) ∧
    (∃ r ∈ (runSteps [RuntimeStep.cacheMaintenance 900000,
          RuntimeStep.foregroundVisibility wOracle200 900000 "w"]
        { sync := { syncInProgress := false, syncQueue := [], store := emptyStore },
          notif := NotificationManager.scheduleEventReminder "Gig" 1000000 "e1"
            600000 100000 { scheduled := [], fired := [] } }).notif.scheduled,
        r.id = "reminder-" ++ "e1" ++ "-" ++ toString (600000 : Int) ∧
        r.reminderTime = 1000000 - 600000 ∧ r.type = "event-reminder") ∧
    ((runSteps [RuntimeStep.cacheMaintenance 900000,
          RuntimeStep.foregroundVisibility wOracle200 900000 "w"]
        { sync := { syncInProgress := false, syncQueue := [], store := emptyStore },
          notif := NotificationManager.scheduleEventReminder "Gig" 1000000 "e1"
            600000 100000 { scheduled := [], fired := [] } }).notif.fired =
      ({ scheduled := [], fired := [] } : NotifState).fired)) :=
  ⟨by decide,
    c9_reminder_never_fired
      [RuntimeStep.cacheMaintenance 900000,
        RuntimeStep.foregroundVisibility wOracle200 900000 "w"]
      { sync := { syncInProgress := false, syncQueue := [], store := emptyStore },
        notif := { scheduled := [], fired := [] } }
      _ "Gig" 1000000 "e1" 600000 100000 (by decide) rfl⟩

/-- C10: `addFailedRequest` overwrites whatever `retryCount` and
`maxRetries` the caller supplied with `0` and `3` before persisting, so
`storePendingOperation` durably stores every queued operation — even an
order creation declared with `maxRetries: 5` — as a record with
`retryCount = 0` and `maxRetries = 3`, while passing the other fields
through. -/
theorem c10_persisted_retry_fields (req : FailedRequestInput)
    (op : SyncOperation) (s : Store) (orderData : List (String × String))
    (genId : String) (now : Nat) :
    ((OfflineStorage.addFailedRequest req s).failedRequests =
      s.failedRequests ++
        [{ id := s.nextFailedId, url := req.url, method := req.method,
           headers := req.headers, body := req.body, timestamp := req.timestamp,
           retryCount := 0, maxRetries := 3 }]) ∧
    ((storePendingOperation op s).failedRequests =
      s.failedRequests ++
        [{ id := s.nextFailedId, url := op.endpoint, method := op.method,
           headers := [("Content-Type", "application/json")],
           body := op.data.map jsonStringify, timestamp := op.timestamp,
           retryCount := 0, maxRetries := 3 }]) ∧
    (queueOrderCreationOp orderData genId now).maxRetries = 5 ∧
    (queueOrderCreationOp orderData genId now).retryCount = 0 :=
  ⟨rfl, rfl, rfl, rfl⟩

end Tiko
